import Mathlib

/-!
Verification development for the ai-recruiter backend.

The Python sources under backend/ are shallowly embedded: pure helpers become
Lean functions, the relational rows become structures, handlers become
functions from an explicit database state (plus a logical clock modelling
datetime.utcnow) to a result and a new database state.  External services
(the chat-completion client, the speech pipeline, the regex engine of the
re module, the Python float parser) are taken as parameters, so theorems
quantify over their behaviour.  Python exceptions are modelled with Option
or explicit error results, following the try/except structure of the code.

Python string primitives (strip, split, replace, startswith, lower) are
re-implemented here by structural recursion over the character list so that
all definitions evaluate inside the kernel.
-/

set_option maxRecDepth 100000

namespace AIRecruiter

/-! ## Python string primitives -/

/-- Characters stripped by Python str.strip with no argument. -/
def pySpace (c : Char) : Bool :=
  c == ' ' || c == '\t' || c == '\n' || c == '\x0d' || c == '\x0b' || c == '\x0c'

/-- Embedding of Python str.strip with no argument. -/
def pyStrip (s : String) : String :=
  String.mk (((s.toList.dropWhile pySpace).reverse.dropWhile pySpace).reverse)

/-- Embedding of Python str.lower restricted to ASCII letters, which is all
the sources compare. -/
def pyLower (s : String) : String :=
  String.mk (s.toList.map Char.toLower)

/-- Embedding of Python str.startswith for a single string argument. -/
def pyStartsWith (pre s : String) : Bool :=
  pre.toList.isPrefixOf s.toList

/-- Embedding of Python len on a string: the number of code points. -/
def pyLen (s : String) : Nat :=
  s.toList.length

/-- Worker for pySplit, fuelled so that recursion is structural. -/
def splitGo (sep : List Char) : Nat → List Char → List Char → List (List Char) → List (List Char)
  | 0, cs, cur, acc => acc ++ [cur ++ cs]
  | fuel + 1, cs, cur, acc =>
    match cs with
    | [] => acc ++ [cur]
    | c :: rest =>
      if sep.isPrefixOf cs then
        splitGo sep fuel (cs.drop sep.length) [] (acc ++ [cur])
      else
        splitGo sep fuel rest (cur ++ [c]) acc

/-- Embedding of Python s.split(sep) for a non-empty separator. -/
def pySplit (sep s : String) : List String :=
  (splitGo sep.toList (s.toList.length + 1) s.toList [] []).map String.mk

/-- Worker for pySplitOnce, fuelled so that recursion is structural. -/
def splitOnceGo (sep : List Char) : Nat → List Char → List Char → Option (List Char × List Char)
  | 0, _, _ => none
  | fuel + 1, cs, cur =>
    match cs with
    | [] => none
    | c :: rest =>
      if sep.isPrefixOf cs then some (cur, cs.drop sep.length)
      else splitOnceGo sep fuel rest (cur ++ [c])

/-- Embedding of Python s.split(sep, 1): the part before the first occurrence
of the separator and the remainder.  Returns none when the separator does not
occur, which also embeds the Python membership test sep in s. -/
def pySplitOnce (sep s : String) : Option (String × String) :=
  (splitOnceGo sep.toList (s.toList.length + 1) s.toList []).map
    (fun p => (String.mk p.1, String.mk p.2))

/-- Membership test sep in s from Python. -/
def pyContains (sub s : String) : Bool :=
  (pySplitOnce sub s).isSome

/-- Worker for pyReplace, fuelled so that recursion is structural. -/
def replaceGo (pat repl : List Char) : Nat → List Char → List Char
  | 0, cs => cs
  | fuel + 1, cs =>
    match cs with
    | [] => []
    | c :: rest =>
      if pat.isPrefixOf cs then repl ++ replaceGo pat repl fuel (cs.drop pat.length)
      else c :: replaceGo pat repl fuel rest

/-- Embedding of Python s.replace(pat, repl) for a non-empty pattern: every
occurrence is replaced, not only a leading one. -/
def pyReplace (s pat repl : String) : String :=
  String.mk (replaceGo pat.toList repl.toList (s.toList.length + 1) s.toList)

example : pyStrip "  ab cd\n" = "ab cd" := by decide
example : pySplit ":" "Relevance Score: 3:5" = ["Relevance Score", " 3", "5"] := by decide
example : pySplitOnce ":" "Question: text: more" = some ("Question", " text: more") := by decide
example : pyReplace "Type: xType:" "Type:" "" = " x" := by decide
example : pyLower "Problem-Solving" = "problem-solving" := by decide

/-! ## Question generation (backend/question_generation.py) -/

/-- Record built by parse_generated_questions.  Fields mirror the keys the
Python code may or may not put into the current_question dict, hence every
field is an Option. -/
structure ParsedQuestion where
  question_text : Option String
  question_type : Option String
  assesses : Option String
  key_points : Option String
deriving DecidableEq

/-- Truthiness of an optional string value, as Python evaluates
field in question and question[field] for string values. -/
def pyTruthy : Option String → Bool
  | some s => !s.isEmpty
  | none => false

/-- Set of valid question types from validate_question. -/
def valid_types : List String :=
  ["technical", "experience", "problem-solving", "behavioral", "cultural-fit"]

/-- Embedding of validate_question (question_generation.py lines 187-206). -/
def validate_question (q : ParsedQuestion) : Bool :=
  (pyTruthy q.question_text && pyTruthy q.question_type
      && pyTruthy q.assesses && pyTruthy q.key_points)
    && !(decide (pyLen (q.question_text.getD "") < 10))
    && valid_types.contains (pyLower (q.question_type.getD ""))

/-- Text of a new question line: line.split(sep, 1)[1] on a colon when the
line contains one, otherwise on a dot, then stripped (question_generation.py
lines 263-266). -/
def newQuestionText (line : String) : String :=
  match pySplitOnce ":" line with
  | some p => pyStrip p.2
  | none =>
    match pySplitOnce "." line with
    | some p => pyStrip p.2
    | none => ""

/-- Flush the current question into the accumulator when it carries a
question_text key (question_generation.py lines 261-262 and 275-276). -/
def flushCurrent (cur : ParsedQuestion) (acc : List ParsedQuestion) : List ParsedQuestion :=
  if cur.question_text.isSome then acc ++ [cur] else acc

/-- The elif chain for tag lines (question_generation.py lines 267-272).
Python str.replace removes every occurrence of the tag, not only a prefix. -/
def applyTag (cur : ParsedQuestion) (line : String) : ParsedQuestion :=
  if pyStartsWith "Type:" line then
    { cur with question_type := some (pyLower (pyStrip (pyReplace line "Type:" ""))) }
  else if pyStartsWith "Assesses:" line then
    { cur with assesses := some (pyStrip (pyReplace line "Assesses:" "")) }
  else if pyStartsWith "Key Points:" line then
    { cur with key_points := some (pyStrip (pyReplace line "Key Points:" "")) }
  else cur

/-- Main loop of parse_generated_questions.  A result of none models the
IndexError raised by line[1] on a one-character digit line, which the outer
except turns into an empty list. -/
def parseGo : List String → ParsedQuestion → List ParsedQuestion → Option (List ParsedQuestion)
  | [], cur, acc => some (flushCurrent cur acc)
  | rawLine :: rest, cur, acc =>
    let line := pyStrip rawLine
    if line.isEmpty then
      parseGo rest cur acc
    else if pyStartsWith "Question:" line then
      parseGo rest ⟨some (newQuestionText line), none, none, none⟩ (flushCurrent cur acc)
    else
      match line.toList with
      | [] => parseGo rest cur acc
      | c0 :: ctail =>
        if c0.isDigit then
          match ctail with
          | [] => none
          | c1 :: _ =>
            if c1 = '.' then
              parseGo rest ⟨some (newQuestionText line), none, none, none⟩ (flushCurrent cur acc)
            else
              parseGo rest (applyTag cur line) acc
        else
          parseGo rest (applyTag cur line) acc

/-- Embedding of parse_generated_questions (question_generation.py
lines 246-288): split on newlines, run the loop, keep only valid records. -/
def parse_generated_questions (text : String) : List ParsedQuestion :=
  match parseGo (pySplit "\n" text) ⟨none, none, none, none⟩ [] with
  | none => []
  | some qs => qs.filter (fun q => validate_question q)

/-- Embedding of get_default_questions (question_generation.py
lines 208-244): the hardcoded fallback set. -/
def get_default_questions : List ParsedQuestion :=
  [ ⟨some "Could you walk me through your most technically challenging project?",
      some "technical",
      some "Technical expertise and problem-solving",
      some "Technical depth, problem approach, solution implementation, results achieved"⟩,
    ⟨some "Describe a situation where you had to learn a new technology quickly. How did you approach it?",
      some "experience",
      some "Learning ability and adaptability",
      some "Learning strategy, time management, practical application, outcome"⟩,
    ⟨some "Tell me about a time when you had to resolve a complex technical issue under tight deadlines.",
      some "problem-solving",
      some "Critical thinking and pressure handling",
      some "Problem analysis, solution approach, time management, result"⟩,
    ⟨some "How do you handle disagreements with team members about technical decisions?",
      some "behavioral",
      some "Conflict resolution and teamwork",
      some "Communication style, conflict resolution approach, team collaboration, outcome"⟩,
    ⟨some "What aspects of our company\x27s tech stack and culture interest you the most?",
      some "cultural-fit",
      some "Company culture alignment and technical interest",
      some "Company research, technical knowledge, cultural values, motivation"⟩ ]

/-- Outcome of one generation attempt.  The llm argument gives the text the
chat-completion call returns on the i-th attempt, none modelling a raised
exception.  Returns the parsed questions when the attempt yields exactly 5
valid ones, none otherwise.  In the Python loop (question_generation.py
lines 145-181) an invalid attempt continues to the next attempt, a raising
attempt either continues or, on the last attempt, re-raises into the outer
except which also returns the defaults, so both failure modes continue
identically. -/
def attemptResult (llm : Nat → Option String) (i : Nat) : Option (List ParsedQuestion) :=
  match llm i with
  | none => none
  | some text =>
    let qs := parse_generated_questions text
    if qs.length == 5 && qs.all (fun q => validate_question q) then some qs else none

/-- Embedding of generate_interview_questions (question_generation.py
lines 92-185) with max_attempts = 3. -/
def generate_interview_questions (llm : Nat → Option String) : List ParsedQuestion :=
  match attemptResult llm 0 with
  | some qs => qs
  | none =>
    match attemptResult llm 1 with
    | some qs => qs
    | none =>
      match attemptResult llm 2 with
      | some qs => qs
      | none => get_default_questions

example : (get_default_questions.map (fun q => q.question_type)) =
    [some "technical", some "experience", some "problem-solving",
     some "behavioral", some "cultural-fit"] := by decide

example : get_default_questions.all (fun q => validate_question q) = true := by decide

example : parse_generated_questions "1. Question: What is a closure in Python?\n   Type: technical\n   Assesses: Language knowledge\n   Key Points: scope, capture, lifetime" =
    [⟨some "What is a closure in Python?", some "technical",
      some "Language knowledge", some "scope, capture, lifetime"⟩] := by decide

/-! ## Response analysis (backend/question_generation.py lines 290-404) -/

/-- The dict built by parse_response_analysis and the error dict returned by
analyze_response on a raised exception share this shape.  Scores are floats
in Python, embedded as rationals. -/
structure Analysis where
  relevance_score : Rat
  clarity_score : Rat
  technical_score : Rat
  key_points : String
  improvement_areas : String
  feedback : String
deriving DecidableEq

/-- Initial dict of parse_response_analysis (lines 377-384). -/
def defaultAnalysis : Analysis := ⟨5, 5, 5, "", "", ""⟩

/-- Dict returned by the except branch of analyze_response (lines 328-338),
reached only when the chat-completion call itself raises. -/
def errorAnalysis : Analysis := ⟨5, 5, 5, "", "Analysis unavailable", "Error analyzing response"⟩

/-- Python line.split(sep)[1].strip(): the segment between the first and
second colon.  Every call site guards with startswith on a prefix that
contains a colon, so index 1 exists. -/
def pySecondField (line : String) : String :=
  pyStrip (((pySplit ":" line).get? 1).getD "")

/-- One iteration of the loop in parse_response_analysis (lines 386-400).
The pf parameter embeds the Python float constructor; none models a raised
ValueError, which aborts the loop. -/
def analysisStep (pf : String → Option Rat) (a : Analysis) (rawLine : String) : Option Analysis :=
  let line := pyStrip rawLine
  if pyStartsWith "Relevance Score:" line then
    match pf (pySecondField line) with
    | none => none
    | some v => some { a with relevance_score := v }
  else if pyStartsWith "Clarity Score:" line then
    match pf (pySecondField line) with
    | none => none
    | some v => some { a with clarity_score := v }
  else if pyStartsWith "Technical Score:" line then
    match pf (pySecondField line) with
    | none => none
    | some v => some { a with technical_score := v }
  else if pyStartsWith "Key Points Covered:" line then
    some { a with key_points := pySecondField line }
  else if pyStartsWith "Improvement Areas:" line then
    some { a with improvement_areas := pySecondField line }
  else if pyStartsWith "Overall Feedback:" line then
    some { a with feedback := pySecondField line }
  else some a

/-- The loop of parse_response_analysis with its surrounding try: a raised
ValueError is caught outside the loop and the dict accumulated so far is
returned. -/
def analysisLoop (pf : String → Option Rat) : List String → Analysis → Analysis
  | [], a => a
  | l :: rest, a =>
    match analysisStep pf a l with
    | none => a
    | some a2 => analysisLoop pf rest a2

/-- Embedding of parse_response_analysis (question_generation.py
lines 373-404, the later of the two identical definitions). -/
def parse_response_analysis (pf : String → Option Rat) (text : String) : Analysis :=
  analysisLoop pf (pySplit "\n" text) defaultAnalysis

/-- Embedding of analyze_response (lines 290-338).  The llmText parameter is
the text the chat-completion call returns, none modelling a raised
exception, which the except branch converts into errorAnalysis.  The
function is total: no input makes it raise to its caller. -/
def analyze_response (pf : String → Option Rat) (llmText : Option String) : Analysis :=
  match llmText with
  | none => errorAnalysis
  | some t => parse_response_analysis pf t

/-! ## Document extraction (backend/app/utils/file_processing.py) -/

/-- Title regex patterns of extract_job_details (lines 266-271), kept as
opaque pattern strings: the re module is embedded as a search parameter. -/
def title_patterns : List String :=
  ["Job Title:\\s*(.*?)(?:\\n|$)",
   "Position:\\s*(.*?)(?:\\n|$)",
   "Role:\\s*(.*?)(?:\\n|$)",
   "^([A-Z][A-Za-z\\s]+(?:Developer|Engineer|Manager|Analyst|Designer))(?:\\n|$)"]

/-- Company regex patterns of extract_job_details (lines 273-278). -/
def company_patterns : List String :=
  ["Company:\\s*(.*?)(?:\\n|$)",
   "Organization:\\s*(.*?)(?:\\n|$)",
   "Employer:\\s*(.*?)(?:\\n|$)",
   "@\\s*([A-Za-z0-9\\s]+)(?:\\n|$)"]

/-- Email regex of extract_candidate_info (line 307). -/
def email_pattern : String :=
  "\\b[A-Za-z0-9._%+-]+@[A-Za-z0-9.-]+\\.[A-Z|a-z]\x7b2,\x7d\\b"

/-- Name regex of extract_candidate_info (line 308). -/
def name_pattern : String :=
  "^([A-Z][a-z]+(?:\\s+[A-Z][a-z]+)+)"

/-- First-match-wins scan over a pattern list (lines 284-295).  The search
parameter embeds re.search returning group(1); the match is stripped. -/
def firstMatchGroup (search : String → String → Option String) (content : String) :
    List String → String
  | [] => ""
  | p :: rest =>
    match search p content with
    | some m => pyStrip m
    | none => firstMatchGroup search content rest

/-- Python dict lookup with .get(key): none when the key is absent. -/
def dictGet? (d : List (String × String)) (k : String) : Option String :=
  (d.find? (fun kv => kv.1 == k)).map (fun kv => kv.2)

/-- Python dict lookup with .get(key, default). -/
def dictGetD (d : List (String × String)) (k dflt : String) : String :=
  (dictGet? d k).getD dflt

/-- Python truthiness fallback x or default for an optional string. -/
def pyOrOptStr (o : Option String) (dflt : String) : String :=
  match o with
  | none => dflt
  | some s => if s.isEmpty then dflt else s

/-- Embedding of extract_job_details (lines 261-300): the returned dict
always contains both keys, possibly with empty values. -/
def extract_job_details (search : String → String → Option String) (content : String) :
    List (String × String) :=
  [("title", firstMatchGroup search content title_patterns),
   ("company", firstMatchGroup search content company_patterns)]

/-- Name scan over the first three lines (lines 319-324).  The reMatch
parameter embeds re.match returning group(0) on the stripped line. -/
def findName (reMatch : String → String → Option String) : List String → String
  | [] => ""
  | line :: rest =>
    match reMatch name_pattern (pyStrip line) with
    | some m => m
    | none => findName reMatch rest

/-- Embedding of extract_candidate_info (lines 302-329). -/
def extract_candidate_info (reSearch reMatch : String → String → Option String)
    (content : String) : List (String × String) :=
  [("name", findName reMatch ((pySplit "\n" content).take 3)),
   ("email", (reSearch email_pattern content).getD "")]

/-- Result dict of the detail-extraction step of process_jd_file. -/
structure JdExtract where
  content : String
  title : String
  company : String
deriving DecidableEq

/-- Detail-extraction step of process_jd_file (lines 96-104): the dict
defaults Untitled Position and Unknown Company apply only when the key is
absent from the job_details dict. -/
def process_jd_details (search : String → String → Option String) (content : String) : JdExtract :=
  let job_details := extract_job_details search content
  ⟨content,
   dictGetD job_details "title" "Untitled Position",
   dictGetD job_details "company" "Unknown Company"⟩

/-- Result dict of the info-extraction step of process_resume_file. -/
structure ResumeExtract where
  content : String
  candidate_name : String
  email : String
deriving DecidableEq

/-- Info-extraction step of process_resume_file (lines 142-151):
candidate_name uses the truthiness fallback candidate_info.get(name) or
Unknown Candidate, email uses .get(email, empty). -/
def process_resume_details (reSearch reMatch : String → String → Option String)
    (content : String) : ResumeExtract :=
  let candidate_info := extract_candidate_info reSearch reMatch content
  ⟨content,
   pyOrOptStr (dictGet? candidate_info "name") "Unknown Candidate",
   dictGetD candidate_info "email" ""⟩

/-! ## Upload validation (app/main.py lines 206-304, file_processing.py lines 16-17, 76-171) -/

/-- ALLOWED_DOCUMENT_TYPES from app/main.py line 208. -/
def ALLOWED_DOCUMENT_TYPES : List String := [".pdf", ".docx", ".doc", ".txt", ".rtf"]

/-- ALLOWED_EXTENSIONS from file_processing.py line 17, without .rtf. -/
def ALLOWED_EXTENSIONS : List String := [".pdf", ".docx", ".doc", ".txt"]

/-- MAX_FILE_SIZE from app/main.py line 209. -/
def MAX_FILE_SIZE : Nat := 5 * 1024 * 1024

/-- Embedding of os.path.splitext limited to its extension component, for
names without directory separators: the extension starts at the last dot,
except that dots leading the name do not count. -/
def splitextExt (filename : String) : String :=
  let cs := filename.toList
  let rest := cs.drop ((cs.takeWhile (fun c => c == '.')).length)
  if rest.contains '.' then
    String.mk ('.' :: (rest.reverse.takeWhile (fun c => c != '.')).reverse)
  else ""

example : splitextExt "resume.rtf" = ".rtf" := by decide
example : splitextExt "a.b.PDF" = ".PDF" := by decide
example : splitextExt ".bashrc" = "" := by decide

/-- Embedding of validate_file (app/main.py lines 217-304): returns the
status code of the HTTPException it raises, or none when validation
passes.  The file-size branch never raises on our in-memory model, so its
except arm is not represented. -/
def validate_file (filename content_type : String) (size : Nat)
    (allowed_types : List String) (max_size : Nat) : Option Nat :=
  if filename.isEmpty then some 400
  else if !(allowed_types.contains (pyLower (splitextExt filename))) then some 415
  else if content_type.isEmpty then some 400
  else if !(pyStartsWith "application/" content_type || pyStartsWith "text/" content_type) then
    some 415
  else if max_size < size then some 413
  else if size == 0 then some 400
  else none

/-- Outcome of the extension gate of the processing layer. -/
inductive UploadGate where
  | accepted (ext : String)
  | rejected (code : Nat)
deriving DecidableEq

/-- Extension gate of process_jd_file (file_processing.py lines 81-87):
a literal 400 when the extension is not allowed. -/
def process_jd_gate (filename : String) : UploadGate :=
  let ext := pyLower (splitextExt filename)
  if !(ALLOWED_EXTENSIONS.contains ext) then .rejected 400 else .accepted ext

/-- Extension gate of process_resume_file (file_processing.py
lines 126-132).  The branch raising the 400 evaluates
status.HTTP_400_BAD_REQUEST, but the name status is never imported in
file_processing.py, so the raise statement itself raises NameError; the
except Exception handler at line 166 evaluates
status.HTTP_500_INTERNAL_SERVER_ERROR and raises NameError again, which
propagates to upload_resume in app/main.py, whose generic handler at
line 403 converts it into an HTTP 500. -/
def process_resume_gate (filename : String) : UploadGate :=
  let ext := pyLower (splitextExt filename)
  if !(ALLOWED_EXTENSIONS.contains ext) then .rejected 500 else .accepted ext

/-- Composition of validate_file and the processing-layer gate as run by
the upload_jd handler (app/main.py lines 306-331). -/
def upload_jd_gate (filename content_type : String) (size : Nat) : UploadGate :=
  match validate_file filename content_type size ALLOWED_DOCUMENT_TYPES MAX_FILE_SIZE with
  | some code => .rejected code
  | none => process_jd_gate filename

/-- Composition of validate_file and the processing-layer gate as run by
the upload_resume handler (app/main.py lines 346-422). -/
def upload_resume_gate (filename content_type : String) (size : Nat) : UploadGate :=
  match validate_file filename content_type size ALLOWED_DOCUMENT_TYPES MAX_FILE_SIZE with
  | some code => .rejected code
  | none => process_resume_gate filename

example : upload_jd_gate "jd.rtf" "application/rtf" 100 = .rejected 400 := by decide
example : upload_resume_gate "resume.rtf" "application/rtf" 100 = .rejected 500 := by decide
example : upload_jd_gate "jd.pdf" "application/pdf" 100 = .accepted ".pdf" := by decide

/-! ## Relational state (app/models/core.py) and the interview handlers (app/main.py)

Rows carry the columns the handlers under scrutiny read or write; unused
columns (scheduling fields, notes, JSON blobs, uuid defaults) are omitted.
datetime.utcnow is modelled by a logical clock: every handler receives the
current instant now, stamps all its writes with it, and returns now + 1
when it wrote anything, so instants of distinct requests are ordered. -/

/-- InterviewSession row (core.py lines 7-53). -/
structure SessionRow where
  id : String
  recruiter_id : String
  status : String
  actual_start_time : Option Nat
  actual_end_time : Option Nat
  technical_score : Rat
  communication_score : Rat
  overall_score : Rat
  updated_at : Nat
deriving DecidableEq

/-- InterviewQuestion row (core.py lines 103-129).  The handler in
update_interview_question also assigns modified_at, which is a plain
Python attribute and not a mapped column; it is kept here as instance
state, but excluded from the column-change test that drives the
updated_at onupdate hook. -/
structure QuestionRow where
  id : String
  interview_session_id : String
  question_text : String
  question_type : String
  category : String
  sequence_number : Nat
  is_generated : Bool
  is_modified : Bool
  modified_at : Option Nat
  updated_at : Nat
deriving DecidableEq

/-- CandidateResponse row (core.py lines 131-156). -/
structure ResponseRow where
  interview_session_id : String
  question_id : String
  response_text : String
  timestamp : Nat
  score : Option Rat
  technical_accuracy : Option Rat
  clarity_score : Option Rat
  ai_feedback : String
  improvement_suggestions : String
deriving DecidableEq

/-- The relational state the interview handlers touch. -/
structure DB where
  sessions : List SessionRow
  questions : List QuestionRow
  responses : List ResponseRow
deriving DecidableEq

/-- Query InterviewSession filter by id, first(). -/
def DB.findSession (db : DB) (sid : String) : Option SessionRow :=
  db.sessions.find? (fun s => s.id == sid)

/-- In-place mutation of the session row with the given id, as the ORM
identity map applies attribute assignments. -/
def DB.modifySession (db : DB) (sid : String) (f : SessionRow → SessionRow) : DB :=
  { db with sessions := db.sessions.map (fun t => if t.id == sid then f t else t) }

/-- Query CandidateResponse filter by interview_session_id. -/
def DB.sessionResponses (db : DB) (sid : String) : List ResponseRow :=
  db.responses.filter (fun r => r.interview_session_id == sid)

/-- Insertion step of an insertion sort by sequence_number. -/
def insertBySeq (q : QuestionRow) : List QuestionRow → List QuestionRow
  | [] => [q]
  | p :: rest =>
    if q.sequence_number ≤ p.sequence_number then q :: p :: rest else p :: insertBySeq q rest

/-- order_by(sequence_number) over a question list. -/
def sortBySeq : List QuestionRow → List QuestionRow
  | [] => []
  | q :: rest => insertBySeq q (sortBySeq rest)

/-- Query InterviewQuestion filter by interview_session_id order_by
sequence_number. -/
def DB.sessionQuestions (db : DB) (sid : String) : List QuestionRow :=
  sortBySeq (db.questions.filter (fun q => q.interview_session_id == sid))

/-- Result of the confirm endpoints. -/
inductive ConfirmResult where
  | ok (interview_id st : String)
  | httpError (code : Nat)
deriving DecidableEq

/-- Embedding of confirm_interview_questions (app/main.py lines 632-673).
The require_recruiter dependency is modelled by user_id being the id of an
authenticated recruiter.  This handler contains no question-count check:
after the ownership test it sets the status to ready unconditionally. -/
def confirm_interview_questions (db : DB) (now : Nat) (interview_id user_id : String) :
    ConfirmResult × DB × Nat :=
  match db.findSession interview_id with
  | none => (.httpError 404, db, now)
  | some interview =>
    if interview.recruiter_id != user_id then (.httpError 403, db, now)
    else
      (.ok interview_id "ready",
       db.modifySession interview_id (fun t => { t with status := "ready", updated_at := now }),
       now + 1)

/-- Embedding of the sibling confirm endpoint in the legacy entry point
backend/main.py lines 483-533 (no auth): it requires exactly 5 question
rows before flipping the status, answering 400 otherwise.  The session
lookup strips the path parameter, the question lookup does not. -/
def legacy_confirm_interview_questions (db : DB) (now : Nat) (interview_id : String) :
    ConfirmResult × DB × Nat :=
  match db.findSession (pyStrip interview_id) with
  | none => (.httpError 404, db, now)
  | some interview =>
    let questions := db.questions.filter (fun q => q.interview_session_id == interview_id)
    if questions.length != 5 then (.httpError 400, db, now)
    else
      (.ok interview_id "ready",
       db.modifySession interview.id (fun t => { t with status := "ready", updated_at := now }),
       now + 1)

/-- Result of update_interview_question. -/
inductive UpdateResult where
  | ok
  | httpError (code : Nat)
deriving DecidableEq

/-- Mapped-column difference between two question rows, restricted to the
columns the update handler can touch; modified_at is not a column. -/
def QuestionRow.columnsDiffer (q p : QuestionRow) : Bool :=
  q.question_text != p.question_text || q.is_modified != p.is_modified

/-- Conditional attribute assignments of app/main.py lines 610-613. -/
def assignQuestionText (now : Nat) (question_update : List (String × String))
    (q : QuestionRow) : QuestionRow :=
  if question_update.any (fun kv => kv.1 == "question_text") then
    { q with question_text := dictGetD question_update "question_text" "",
             is_modified := true, modified_at := some now }
  else q

/-- Row transformation of update_interview_question: the conditional
attribute assignments followed by the updated_at onupdate hook
(core.py line 120), which stamps the row on commit whenever a mapped
column actually changed. -/
def applyQuestionUpdate (now : Nat) (question_update : List (String × String))
    (q : QuestionRow) : QuestionRow :=
  if (assignQuestionText now question_update q).columnsDiffer q then
    { assignQuestionText now question_update q with updated_at := now }
  else assignQuestionText now question_update q

/-- Embedding of update_interview_question (app/main.py lines 592-630).
The body question_update is a JSON object, modelled as a key-value list. -/
def update_interview_question (db : DB) (now : Nat) (question_id : String)
    (question_update : List (String × String)) : UpdateResult × DB × Nat :=
  match db.questions.find? (fun q => q.id == question_id) with
  | none => (.httpError 404, db, now)
  | some q =>
    let q2 := applyQuestionUpdate now question_update q
    (.ok,
     { db with questions := db.questions.map (fun p => if p.id == question_id then q2 else p) },
     now + 1)

/-- Embedding of create_interview (app/main.py lines 425-492) restricted to
its inserts: the jd and resume existence checks are outside the claims, so
the caller is assumed to have passed them.  The new session starts in
status draft; each generated question becomes a row with sequence numbers
counted from 1 and is_generated true. -/
def create_interview (llm : Nat → Option String) (db : DB) (now : Nat)
    (session_id recruiter_id : String) (question_id : Nat → String) : DB × Nat :=
  let sess : SessionRow :=
    { id := session_id, recruiter_id := recruiter_id, status := "draft",
      actual_start_time := none, actual_end_time := none,
      technical_score := 0, communication_score := 0, overall_score := 0, updated_at := now }
  let generated := generate_interview_questions llm
  let qrows := (generated.zip (List.range generated.length)).map (fun p =>
    ({ id := question_id p.2,
       interview_session_id := session_id,
       question_text := p.1.question_text.getD "",
       question_type := p.1.question_type.getD "general",
       category := p.1.assesses.getD "general",
       sequence_number := p.2 + 1,
       is_generated := true,
       is_modified := false,
       modified_at := none,
       updated_at := now } : QuestionRow))
  ({ db with sessions := db.sessions ++ [sess], questions := db.questions ++ qrows }, now + 1)

/-- Result of the talk-video endpoint. -/
inductive TalkResult where
  | stream (status_header : String) (total answered : Nat)
  | httpError (code : Nat)
deriving DecidableEq

/-- External outcomes of one talk-video request: the transcription pipeline
(none models any exception while saving, converting or transcribing the
recording), the byte size of the uploaded recording checked at app/main.py
lines 766-773, the text-to-speech call, and each db.commit call in request
order (false models a raised database error, which the generic except
handler at app/main.py line 906 answers with rollback and a 500). -/
structure TalkEnv where
  transcript : Option String
  file_size : Nat
  tts_ok : Bool
  commit_ok : Nat → Bool

/-- Session mutation of app/main.py lines 760-763: entering in_progress
stamps the actual start time (updated_at is stamped by the onupdate hook
on commit). -/
def startFlipRow (now : Nat) (t : SessionRow) : SessionRow :=
  { t with status := "in_progress", actual_start_time := some now, updated_at := now }

/-- Response row of app/main.py lines 820-837: the insert at line 827
followed in the same transaction by the analysis back-fill of
lines 833-837, which updates the same pending row before any commit. -/
def turnResponse (analysis : Analysis) (iid qid msg : String) (now : Nat) : ResponseRow :=
  { interview_session_id := iid, question_id := qid, response_text := msg, timestamp := now,
    score := some analysis.relevance_score,
    technical_accuracy := some analysis.technical_score,
    clarity_score := some analysis.clarity_score,
    ai_feedback := analysis.feedback,
    improvement_suggestions := analysis.improvement_areas }

/-- State after the early-commit block of app/main.py lines 759-763: when
the session was not yet in_progress, the committed state carries the
in_progress flip, otherwise it is unchanged. -/
def dbEarlyOf (db : DB) (iid : String) (now : Nat) (flip : Bool) : DB :=
  if flip then db.modifySession iid (startFlipRow now) else db

/-- Pending state after db.add of the response row (app/main.py line 827). -/
def dbAddedOf (dbE : DB) (r : ResponseRow) : DB :=
  { dbE with responses := dbE.responses ++ [r] }

/-- Session mutation of app/main.py lines 841-856: completion stamps the
actual end time and stores the aggregate scores. -/
def completeRow (now : Nat) (technical communication : Rat) (t : SessionRow) : SessionRow :=
  { t with
    status := "completed",
    actual_end_time := some now,
    technical_score := technical,
    communication_score := communication,
    overall_score := (technical + communication) / 2,
    updated_at := now }

/-- Body of process_video once the session row has been found (app/main.py
lines 742-912).  The analyze parameter embeds the awaited analyze_response
call, which never raises (its except branch returns the error dict), so it
is a total function from question text and transcript to an analysis dict.
The returned DB is the state a later request observes: the last
successfully committed one; working-copy changes after a failed commit are
rolled back at line 908 and discarded when the request-scoped ORM session
closes. -/
def process_video_found (env : TalkEnv) (analyze : String → String → Analysis)
    (db : DB) (now : Nat) (interview_id : String) (sess0 : SessionRow) :
    TalkResult × DB × Nat :=
    let answered_questions := (db.sessionResponses interview_id).length
    let all_questions := db.sessionQuestions interview_id
    if all_questions.isEmpty then (.httpError 400, db, now)
    else if sess0.status == "completed" then (.httpError 400, db, now)
    else
      let flip := sess0.status != "in_progress"
      let sess1 := if flip then startFlipRow now sess0 else sess0
      let dbEarly := dbEarlyOf db interview_id now flip
      if flip && !(env.commit_ok 0) then
        (.httpError 500, db, now)
      else
        let commitIdx := if flip then 1 else 0
        if 5 * 1024 * 1024 < env.file_size then
          (.httpError 400, dbEarly, now)
        else
          match env.transcript with
          | none => (.httpError 500, dbEarly, now)
          | some user_message =>
            match all_questions.find? (fun q => q.sequence_number == answered_questions + 1) with
            | none => (.httpError 400, dbEarly, now)
            | some current_question =>
              let response := turnResponse (analyze current_question.question_text user_message)
                interview_id current_question.id user_message now
              let dbAdded := dbAddedOf dbEarly response
              let last := all_questions.length ≤ answered_questions + 1
              -- The aggregate query at line 845 runs with autoflush disabled
              -- (app/database.py line 37) and nothing flushes the pending
              -- response row, so it returns only the committed rows: those
              -- of previous requests (the early commit above touched only
              -- the session row).  On a final turn with no committed
              -- responses the division at line 852 raises ZeroDivisionError,
              -- which the generic handler answers with rollback and a 500.
              let committed := db.sessionResponses interview_id
              if last ∧ committed.length = 0 then
                (.httpError 500, dbEarly, now)
              else
                let dbFinal :=
                  if last then
                    let technical_score :=
                      (committed.map (fun r => r.technical_accuracy.getD 0)).sum
                        / (committed.length : Rat)
                    let communication_score :=
                      (committed.map (fun r => r.clarity_score.getD 0)).sum
                        / (committed.length : Rat)
                    dbAdded.modifySession interview_id
                      (completeRow now technical_score communication_score)
                  else dbAdded
                if !(env.commit_ok commitIdx) then
                  (.httpError 500, dbEarly, now)
                else if !env.tts_ok then
                  (.httpError 500, dbFinal, now + 1)
                else
                  (.stream (if last then "completed" else sess1.status)
                     all_questions.length (answered_questions + 1),
                   dbFinal, now + 1)

/-- Embedding of process_video (app/main.py lines 721-912): session lookup
with a 404 on a missing session, then the found-session body. -/
def process_video (env : TalkEnv) (analyze : String → String → Analysis)
    (db : DB) (now : Nat) (interview_id : String) : TalkResult × DB × Nat :=
  match db.findSession interview_id with
  | none => (.httpError 404, db, now)
  | some sess0 => process_video_found env analyze db now interview_id sess0

/-- Rank of a session status along the documented chain; unknown strings
rank lowest. -/
def statusRank : String → Nat
  | "ready" => 1
  | "in_progress" => 2
  | "completed" => 3
  | _ => 0

/-- A line matching none of the six patterns of parse_response_analysis. -/
def lineUnmatched (l : String) : Prop :=
  pyStartsWith "Relevance Score:" (pyStrip l) = false
  ∧ pyStartsWith "Clarity Score:" (pyStrip l) = false
  ∧ pyStartsWith "Technical Score:" (pyStrip l) = false
  ∧ pyStartsWith "Key Points Covered:" (pyStrip l) = false
  ∧ pyStartsWith "Improvement Areas:" (pyStrip l) = false
  ∧ pyStartsWith "Overall Feedback:" (pyStrip l) = false

instance : DecidablePred lineUnmatched := fun l => by
  unfold lineUnmatched
  infer_instance

/-- Session row fixture. -/
def sampleSession (st : String) : SessionRow :=
  { id := "s1", recruiter_id := "u1", status := st,
    actual_start_time := none, actual_end_time := none,
    technical_score := 0, communication_score := 0, overall_score := 0, updated_at := 0 }

/-- Question row fixture. -/
def sampleQuestion (qid : String) (seq : Nat) : QuestionRow :=
  { id := qid, interview_session_id := "s1",
    question_text := "Describe a recent project you are proud of.",
    question_type := "technical", category := "general", sequence_number := seq,
    is_generated := true, is_modified := false, modified_at := none, updated_at := 0 }

/-- A draft session owned by recruiter u1 with only 3 persisted questions. -/
def dbDraft3 : DB :=
  ⟨[sampleSession "draft"],
   [sampleQuestion "q1" 1, sampleQuestion "q2" 2, sampleQuestion "q3" 3], []⟩

/-- A ready session whose single question has sequence number 2, so
answered + 1 = 1 matches nothing. -/
def dbGap : DB := ⟨[sampleSession "ready"], [sampleQuestion "q2" 2], []⟩

/-- A ready session with one question of sequence number 1 and no
responses: the next submitted turn is the final one. -/
def dbOne : DB := ⟨[sampleSession "ready"], [sampleQuestion "q1" 1], []⟩

/-- Committed response row fixture for question q1, scored 8 technical
and 6 clarity. -/
def sampleResponse : ResponseRow :=
  ⟨"s1", "q1", "an earlier answer", 1, some 5, some 8, some 6, "", ""⟩

/-- A ready session with questions q1, q2 and one committed response for
q1: the next submitted turn answers q2 and is the final one. -/
def dbTwo : DB :=
  ⟨[sampleSession "ready"], [sampleQuestion "q1" 1, sampleQuestion "q2" 2], [sampleResponse]⟩

/-! ## C10: .rtf uploads -/

/-- C10 counterexample: a .rtf resume upload of valid size and content type
is rejected with 500, not with the claimed 400, because the 400-raising
branch of process_resume_file trips over the unimported name status. -/
theorem rtf_resume_500_counterexample :
    upload_resume_gate "resume.rtf" "application/rtf" 100 = .rejected 500
    ∧ upload_resume_gate "resume.rtf" "application/rtf" 100 ≠ .rejected 400 := by
  decide

/-- C10 amended: every upload whose filename carries extension .rtf passes
the top-level validate_file check (ALLOWED_DOCUMENT_TYPES lists .rtf) and is
then rejected by the file-processing layer, with 400 on the jd path and,
because of the unimported status name, 500 on the resume path; no .rtf
upload ever succeeds. -/
theorem rtf_upload_amended (filename content_type : String) (size : Nat)
    (hext : pyLower (splitextExt filename) = ".rtf")
    (hname : filename.isEmpty = false)
    (hct0 : content_type.isEmpty = false)
    (hct : pyStartsWith "application/" content_type = true)
    (hsz1 : ¬ MAX_FILE_SIZE < size)
    (hsz0 : (size == 0) = false) :
    validate_file filename content_type size ALLOWED_DOCUMENT_TYPES MAX_FILE_SIZE = none
    ∧ upload_jd_gate filename content_type size = .rejected 400
    ∧ upload_resume_gate filename content_type size = .rejected 500 := by
  have hmem : ".rtf" ∈ ALLOWED_DOCUMENT_TYPES := by decide
  have hnotmem : ".rtf" ∉ ALLOWED_EXTENSIONS := by decide
  have hv : validate_file filename content_type size ALLOWED_DOCUMENT_TYPES MAX_FILE_SIZE = none := by
    simp [validate_file, hname, hct0, hct, hsz1, hsz0, hext, hmem]
  refine ⟨hv, ?_, ?_⟩
  · simp [upload_jd_gate, hv, process_jd_gate, hext, hnotmem]
  · simp [upload_resume_gate, hv, process_resume_gate, hext, hnotmem]

/-- C10 witness. -/
theorem rtf_upload_amended_witness :
    validate_file "cv.rtf" "application/rtf" 100 ALLOWED_DOCUMENT_TYPES MAX_FILE_SIZE = none
    ∧ upload_jd_gate "cv.rtf" "application/rtf" 100 = .rejected 400
    ∧ upload_resume_gate "cv.rtf" "application/rtf" 100 = .rejected 500 :=
  rtf_upload_amended "cv.rtf" "application/rtf" 100 (by decide) (by decide) (by decide)
    (by decide) (by decide) (by decide)

/-! ## C5: analyzer defaults on malformed text -/

/-- C5 counterexample: on LLM text with no line starting with Relevance
Score, analyze_response returns the parse defaults whose feedback field is
the empty string, not the claimed Error analyzing response (that string is
produced only when the chat-completion call itself raises). -/
theorem analyze_malformed_feedback_counterexample :
    (∀ l ∈ pySplit "\n" "Total nonsense", pyStartsWith "Relevance Score:" (pyStrip l) = false)
    ∧ (analyze_response (fun _ => none) (some "Total nonsense")).feedback = ""
    ∧ (analyze_response (fun _ => none) (some "Total nonsense")).feedback
        ≠ "Error analyzing response" := by
  decide

lemma analysisStep_unmatched (pf : String → Option Rat) (a : Analysis) (l : String)
    (h : lineUnmatched l) : analysisStep pf a l = some a := by
  obtain ⟨h1, h2, h3, h4, h5, h6⟩ := h
  simp [analysisStep, h1, h2, h3, h4, h5, h6]

lemma analysisLoop_unmatched (pf : String → Option Rat) (ls : List String) (a : Analysis)
    (h : ∀ l ∈ ls, lineUnmatched l) : analysisLoop pf ls a = a := by
  induction ls with
  | nil => rfl
  | cons l rest ih =>
    rw [analysisLoop, analysisStep_unmatched pf a l (h l (by simp))]
    exact ih (fun x hx => h x (by simp [hx]))

/-- C5 amended: when the returned LLM text contains no line starting with
any of the six analysis patterns, analyze_response returns exactly the
parse defaults: scores 5, empty key points, empty improvement areas and
empty feedback; it never raises (it is a total function), and the dict with
feedback Error analyzing response arises exactly on the path where the
chat-completion call raises. -/
theorem analyze_malformed_defaults (pf : String → Option Rat) (text : String)
    (h : ∀ l ∈ pySplit "\n" text, lineUnmatched l) :
    analyze_response pf (some text) = defaultAnalysis
    ∧ (analyze_response pf (some text)).feedback = ""
    ∧ analyze_response pf none = errorAnalysis := by
  have hd : analyze_response pf (some text) = defaultAnalysis := by
    show parse_response_analysis pf text = defaultAnalysis
    exact analysisLoop_unmatched pf _ _ h
  exact ⟨hd, by rw [hd]; rfl, rfl⟩

/-- C5 witness. -/
theorem analyze_malformed_defaults_witness :
    analyze_response (fun _ => none) (some "score sheet unavailable") = defaultAnalysis
    ∧ (analyze_response (fun _ => none) (some "score sheet unavailable")).feedback = ""
    ∧ analyze_response (fun _ => none) none = errorAnalysis :=
  analyze_malformed_defaults (fun _ => none) "score sheet unavailable" (by decide)

/-! ## C6: generation fallback -/

lemma attemptResult_some (llm : Nat → Option String) (i : Nat) (qs : List ParsedQuestion)
    (h : attemptResult llm i = some qs) :
    qs.length = 5 ∧ qs.all (fun q => validate_question q) = true := by
  unfold attemptResult at h
  cases hl : llm i with
  | none => rw [hl] at h; cases h
  | some t =>
    rw [hl] at h
    by_cases hc : ((parse_generated_questions t).length == 5
        && (parse_generated_questions t).all (fun q => validate_question q)) = true
    · have he : some (parse_generated_questions t) = some qs := by
        rw [← h]; simp [hc]
      cases he
      simpa [Bool.and_eq_true, beq_iff_eq] using hc
    · exfalso
      have he : (none : Option (List ParsedQuestion)) = some qs := by
        rw [← h]; simp [hc]
      cases he

lemma attemptResult_short (llm : Nat → Option String) (i : Nat)
    (h : ∀ t, llm i = some t → (parse_generated_questions t).length < 5) :
    attemptResult llm i = none := by
  unfold attemptResult
  cases hl : llm i with
  | none => rfl
  | some t =>
    have hlt := h t hl
    have hne : ((parse_generated_questions t).length == 5) = false := by
      simp [Nat.ne_of_lt hlt]
    simp [hne]

/-- C6: when every one of the 3 generation attempts parses to fewer than 5
valid questions (a raising attempt returns no text at all), the result is
exactly the hardcoded fallback set, one question per fixed category; and
for every behaviour of the generation service the result has exactly 5
questions, all passing validate_question. -/
theorem generation_fallback (llm : Nat → Option String)
    (h : ∀ i, i < 3 → ∀ t, llm i = some t → (parse_generated_questions t).length < 5) :
    generate_interview_questions llm = get_default_questions
    ∧ get_default_questions.map (fun q => q.question_type) =
        [some "technical", some "experience", some "problem-solving",
         some "behavioral", some "cultural-fit"]
    ∧ ∀ f : Nat → Option String,
        (generate_interview_questions f).length = 5
        ∧ (generate_interview_questions f).all (fun q => validate_question q) = true := by
  refine ⟨?_, by decide, ?_⟩
  · have h0 := attemptResult_short llm 0 (h 0 (by omega))
    have h1 := attemptResult_short llm 1 (h 1 (by omega))
    have h2 := attemptResult_short llm 2 (h 2 (by omega))
    unfold generate_interview_questions
    rw [h0, h1, h2]
  · intro f
    unfold generate_interview_questions
    cases ha0 : attemptResult f 0 with
    | some qs => exact attemptResult_some f 0 qs ha0
    | none =>
      cases ha1 : attemptResult f 1 with
      | some qs => exact attemptResult_some f 1 qs ha1
      | none =>
        cases ha2 : attemptResult f 2 with
        | some qs => exact attemptResult_some f 2 qs ha2
        | none => exact ⟨by decide, by decide⟩

/-- C6 witness. -/
theorem generation_fallback_witness :
    generate_interview_questions (fun _ => none) = get_default_questions
    ∧ get_default_questions.map (fun q => q.question_type) =
        [some "technical", some "experience", some "problem-solving",
         some "behavioral", some "cultural-fit"]
    ∧ ∀ f : Nat → Option String,
        (generate_interview_questions f).length = 5
        ∧ (generate_interview_questions f).all (fun q => validate_question q) = true :=
  generation_fallback (fun _ => none) (fun i _ t ht => by cases ht)

/-! ## C8: extraction defaults -/

/-- C8 counterexample: on jd content matched by none of the regex patterns
(the constant-none search embeds the regex engine on such content, for
example the text zzz), the extracted title is the empty string, not the
claimed Untitled Position, and the company is empty, not Unknown Company:
extract_job_details always returns both keys, so the dict defaults in
process_jd_file are dead. -/
theorem jd_placeholder_counterexample :
    (process_jd_details (fun _ _ => none) "zzz").title = ""
    ∧ (process_jd_details (fun _ _ => none) "zzz").title ≠ "Untitled Position"
    ∧ (process_jd_details (fun _ _ => none) "zzz").company = ""
    ∧ (process_jd_details (fun _ _ => none) "zzz").company ≠ "Unknown Company" := by
  decide

lemma firstMatchGroup_none (search : String → String → Option String) (content : String)
    (pats : List String) (h : ∀ p ∈ pats, search p content = none) :
    firstMatchGroup search content pats = "" := by
  induction pats with
  | nil => rfl
  | cons p rest ih =>
    rw [firstMatchGroup, h p (by simp)]
    exact ih (fun x hx => h x (by simp [hx]))

lemma findName_none (reMatch : String → String → Option String) (ls : List String)
    (h : ∀ l ∈ ls, reMatch name_pattern (pyStrip l) = none) :
    findName reMatch ls = "" := by
  induction ls with
  | nil => rfl
  | cons l rest ih =>
    rw [findName, h l (by simp)]
    exact ih (fun x hx => h x (by simp [hx]))

/-- C8 amended: when no extraction pattern matches, the upload still goes
through with title and company extracted as empty strings (the Untitled
Position and Unknown Company defaults are unreachable because
extract_job_details always returns both keys), while the resume side does
fall back to Unknown Candidate via the or-default, with an empty email;
extraction is a total function, so it never blocks the upload. -/
theorem extraction_no_match_amended
    (search reSearch reMatch : String → String → Option String) (jd resume : String)
    (hT : ∀ p ∈ title_patterns, search p jd = none)
    (hC : ∀ p ∈ company_patterns, search p jd = none)
    (hE : reSearch email_pattern resume = none)
    (hN : ∀ l ∈ (pySplit "\n" resume).take 3, reMatch name_pattern (pyStrip l) = none) :
    process_jd_details search jd = ⟨jd, "", ""⟩
    ∧ process_resume_details reSearch reMatch resume = ⟨resume, "Unknown Candidate", ""⟩ := by
  constructor
  · simp [process_jd_details, extract_job_details, dictGetD, dictGet?,
      firstMatchGroup_none search jd title_patterns hT,
      firstMatchGroup_none search jd company_patterns hC]
  · simp [process_resume_details, extract_candidate_info, dictGetD, dictGet?, pyOrOptStr,
      findName_none reMatch _ hN, hE]
    all_goals decide

/-! ## Shared list lemmas for the stateful claims -/

lemma find?_map_apply {α : Type} (key : α → String) (i : String) (f : α → α)
    (hf : ∀ t, key (f t) = key t) (l : List α) (s : α)
    (h : l.find? (fun t => key t == i) = some s) :
    (l.map (fun t => if key t == i then f t else t)).find? (fun t => key t == i) = some (f s) := by
  induction l with
  | nil => cases h
  | cons x rest ih =>
    by_cases hp : (key x == i) = true
    · rw [show (x :: rest).find? (fun t => key t == i) = some x from
        List.find?_cons_of_pos _ hp] at h
      have hxs : x = s := Option.some.inj h
      subst hxs
      simp only [List.map_cons, hp, if_true]
      have hfp : (key (f x) == i) = true := by rw [hf]; exact hp
      exact List.find?_cons_of_pos _ hfp
    · have hp' : (key x == i) = false := by simpa using hp
      rw [show (x :: rest).find? (fun t => key t == i) = rest.find? (fun t => key t == i) from
        List.find?_cons_of_neg _ (by simp [hp'])] at h
      simp only [List.map_cons, hp', if_false]
      rw [List.find?_cons_of_neg _ (by simp [hp'])]
      exact ih h

lemma find?_map_const {α : Type} (key : α → String) (i : String) (r : α)
    (hr : (key r == i) = true) (l : List α) (s : α)
    (h : l.find? (fun t => key t == i) = some s) :
    (l.map (fun t => if key t == i then r else t)).find? (fun t => key t == i) = some r := by
  induction l with
  | nil => cases h
  | cons x rest ih =>
    by_cases hp : (key x == i) = true
    · simp only [List.map_cons, hp, if_true]
      exact List.find?_cons_of_pos _ hr
    · have hp' : (key x == i) = false := by simpa using hp
      rw [show (x :: rest).find? (fun t => key t == i) = rest.find? (fun t => key t == i) from
        List.find?_cons_of_neg _ (by simp [hp'])] at h
      simp only [List.map_cons, hp', if_false]
      rw [List.find?_cons_of_neg _ (by simp [hp'])]
      exact ih h

lemma statusRank_le_three (s : String) : statusRank s ≤ 3 := by
  unfold statusRank
  split <;> omega

lemma statusRank_le_two_of_ne (s : String) (h : (s == "completed") = false) :
    statusRank s ≤ 2 := by
  unfold statusRank
  split <;> simp_all

/-! ## C1: confirm without five questions -/

/-- C1: evaluated at the failing input, a draft session with only 3
persisted questions confirmed by its owning recruiter.  The handler in
app/main.py answers 200 with status ready: it has no question-count check.
The legacy sibling endpoint in backend/main.py, which the claim describes,
answers 400 on the same state and leaves the status at draft. -/
theorem confirm_three_questions_succeeds :
    dbDraft3.questions.length = 3
    ∧ (confirm_interview_questions dbDraft3 1 "s1" "u1").1 = .ok "s1" "ready"
    ∧ ((confirm_interview_questions dbDraft3 1 "s1" "u1").2.1.findSession "s1").map
        (fun s => s.status) = some "ready"
    ∧ (legacy_confirm_interview_questions dbDraft3 1 "s1").1 = .httpError 400
    ∧ ((legacy_confirm_interview_questions dbDraft3 1 "s1").2.1.findSession "s1").map
        (fun s => s.status) = some "draft" := by
  decide

/-! ## C2: status monotonicity -/

/-- C2 counterexample: confirming a completed session moves its status
backwards to ready, because the confirm handler assigns ready without
inspecting the current status. -/
theorem confirm_completed_backwards_counterexample :
    ((confirm_interview_questions ⟨[sampleSession "completed"],
        [sampleQuestion "q1" 1], []⟩ 9 "s1" "u1").2.1.findSession "s1").map
      (fun s => s.status) = some "ready"
    ∧ statusRank "ready" < statusRank "completed" := by
  decide

lemma findSession_set_responses (db : DB) (r : List ResponseRow) (iid : String) :
    (DB.mk db.sessions db.questions r).findSession iid = db.findSession iid := rfl

lemma process_video_of_found (env : TalkEnv) (analyze : String → String → Analysis)
    (db : DB) (now : Nat) (iid : String) (s : SessionRow)
    (h : db.findSession iid = some s) :
    process_video env analyze db now iid = process_video_found env analyze db now iid s := by
  unfold process_video
  rw [h]

lemma findSession_modify_found (db : DB) (iid : String) (f : SessionRow → SessionRow)
    (hf : ∀ t, (f t).id = t.id) (s : SessionRow) (h : db.findSession iid = some s) :
    (db.modifySession iid f).findSession iid = some (f s) := by
  unfold DB.findSession DB.modifySession at *
  exact find?_map_apply (fun t => t.id) iid f hf db.sessions s h

lemma statusRank_le_complete (dbx : DB) (nowx : Nat) (iid : String) (T C : Rat)
    (s0 s2 : SessionRow) (st : String)
    (h0 : dbx.findSession iid = some s0)
    (h2 : (dbx.modifySession iid (completeRow nowx T C)).findSession iid = some s2) :
    statusRank st ≤ statusRank s2.status := by
  rw [findSession_modify_found dbx iid (completeRow nowx T C) (fun t => rfl) s0 h0] at h2
  cases h2
  exact statusRank_le_three st

lemma rank_le_early (db : DB) (iid : String) (now : Nat) (flip : Bool)
    (s s2 : SessionRow) (hs : db.findSession iid = some s)
    (hcomp : (s.status == "completed") = false)
    (h2 : (dbEarlyOf db iid now flip).findSession iid = some s2) :
    statusRank s.status ≤ statusRank s2.status := by
  cases flip with
  | false =>
    rw [show dbEarlyOf db iid now false = db from rfl, hs] at h2
    cases h2
    exact Nat.le_refl _
  | true =>
    rw [show dbEarlyOf db iid now true = db.modifySession iid (startFlipRow now) from rfl,
      findSession_modify_found db iid (startFlipRow now) (fun t => rfl) s hs] at h2
    cases h2
    exact statusRank_le_two_of_ne s.status hcomp

lemma rank_le_added (db : DB) (iid : String) (now : Nat) (flip : Bool) (r : ResponseRow)
    (s s2 : SessionRow) (hs : db.findSession iid = some s)
    (hcomp : (s.status == "completed") = false)
    (h2 : (dbAddedOf (dbEarlyOf db iid now flip) r).findSession iid = some s2) :
    statusRank s.status ≤ statusRank s2.status :=
  rank_le_early db iid now flip s s2 hs hcomp h2

lemma rank_le_complete_early (db : DB) (iid : String) (now : Nat) (flip : Bool)
    (r : ResponseRow) (T C : Rat) (s s2 : SessionRow)
    (hs : db.findSession iid = some s)
    (h2 : ((dbAddedOf (dbEarlyOf db iid now flip) r).modifySession iid
        (completeRow now T C)).findSession iid = some s2) :
    statusRank s.status ≤ statusRank s2.status := by
  cases flip with
  | false =>
    exact statusRank_le_complete (dbAddedOf (dbEarlyOf db iid now false) r) now iid T C
      s s2 s.status hs h2
  | true =>
    exact statusRank_le_complete (dbAddedOf (dbEarlyOf db iid now true) r) now iid T C
      (startFlipRow now s) s2 s.status
      (findSession_modify_found db iid (startFlipRow now) (fun t => rfl) s hs) h2

/-- C2 amended: the audio-turn handler only moves the target session
forward along the chain (a completed session is rejected unchanged, any
other session moves to in_progress or completed), and a created session
starts at draft; the confirm handler however assigns ready from any
status, with no question-count condition, which is the only backward
transition. -/
theorem status_monotonic_amended :
    (∀ (env : TalkEnv) (analyze : String → String → Analysis) (db : DB) (now : Nat)
        (iid : String) (s s2 : SessionRow),
        db.findSession iid = some s →
        (process_video env analyze db now iid).2.1.findSession iid = some s2 →
        statusRank s.status ≤ statusRank s2.status)
    ∧ (∀ (db : DB) (now : Nat) (iid uid : String) (s : SessionRow),
        db.findSession iid = some s → (s.recruiter_id != uid) = false →
        ((confirm_interview_questions db now iid uid).2.1.findSession iid).map
          (fun t => t.status) = some "ready")
    ∧ (∀ (llm : Nat → Option String) (db : DB) (now : Nat) (sid rid : String)
        (qid : Nat → String),
        db.findSession sid = none →
        ((create_interview llm db now sid rid qid).1.findSession sid).map
          (fun t => t.status) = some "draft") := by
  refine ⟨?_, ?_, ?_⟩
  · intro env analyze db now iid s s2 hs h2
    rw [process_video_of_found env analyze db now iid s hs] at h2
    unfold process_video_found at h2
    dsimp only at h2
    repeat' (first | (split at h2) | (dsimp only at h2))
    all_goals first
      | (rw [hs] at h2; cases h2; exact Nat.le_refl _)
      | (exact rank_le_early db iid now _ s _ hs (by simp_all) h2)
      | (exact rank_le_added db iid now _ _ s _ hs (by simp_all) h2)
      | (exact rank_le_complete_early db iid now _ _ _ _ s _ hs h2)
  · intro db now iid uid s hs hrec
    have hmod := findSession_modify_found db iid
      (fun t => { t with status := "ready", updated_at := now }) (fun t => rfl) s hs
    unfold confirm_interview_questions
    rw [hs]
    simp [hrec, hmod]
  · intro llm db now sid rid qid hnone
    unfold create_interview
    dsimp only
    unfold DB.findSession
    rw [List.find?_append]
    rw [show db.sessions.find? (fun t => t.id == sid) = none from hnone]
    simp [List.find?]

/-- C2 witness. -/
theorem status_monotonic_amended_witness :
    statusRank (sampleSession "ready").status
      ≤ statusRank (startFlipRow 7 (sampleSession "ready")).status
    ∧ (((confirm_interview_questions dbGap 3 "s1" "u1").2.1.findSession "s1").map
        (fun t => t.status) = some "ready")
    ∧ (((create_interview (fun _ => none) ⟨[], [], []⟩ 0 "s9" "u1" (fun _ => "g")).1.findSession
        "s9").map (fun t => t.status) = some "draft") := by
  refine ⟨?_, ?_, ?_⟩
  · exact status_monotonic_amended.1 ⟨some "transcribed answer", 100, true, fun _ => true⟩
      (fun _ _ => defaultAnalysis) dbGap 7 "s1" (sampleSession "ready")
      (startFlipRow 7 (sampleSession "ready")) rfl rfl
  · exact status_monotonic_amended.2.1 dbGap 3 "s1" "u1" (sampleSession "ready") rfl rfl
  · exact status_monotonic_amended.2.2 (fun _ => none) ⟨[], [], []⟩ 0 "s9" "u1" (fun _ => "g") rfl

/-! ## C3: turn atomicity -/

/-- C3 counterexample, two traces.  First: on a ready 1-question session,
the final turn reaches the aggregate query of app/main.py line 845 with no
committed responses (the pending row is invisible under autoflush=False),
so line 852 divides by zero; the generic handler rolls the transaction
back and answers 500 - yet the separately committed in_progress flip with
its start timestamp stays persisted, so partial turn state survives the
failed turn.  Second: on a ready 2-question session with one committed
response, a text-to-speech failure raises after the main commit: the
request answers 500 with the new response row and the completed status
fully persisted, nothing rolled back.  Both traces refute the claim that
any exception after the response row is created rolls the whole turn
back and that no partial turn state is ever persisted. -/
theorem talk_turn_persisted_counterexample :
    ((process_video ⟨some "final answer", 100, true, fun _ => true⟩
        (fun _ _ => defaultAnalysis) dbOne 4 "s1").1 = .httpError 500
      ∧ (process_video ⟨some "final answer", 100, true, fun _ => true⟩
        (fun _ _ => defaultAnalysis) dbOne 4 "s1").2.1.responses.length = 0
      ∧ ((process_video ⟨some "final answer", 100, true, fun _ => true⟩
        (fun _ _ => defaultAnalysis) dbOne 4 "s1").2.1.findSession "s1").map
        (fun t => t.status) = some "in_progress"
      ∧ ((process_video ⟨some "final answer", 100, true, fun _ => true⟩
        (fun _ _ => defaultAnalysis) dbOne 4 "s1").2.1.findSession "s1").map
        (fun t => t.actual_start_time) = some (some 4))
    ∧ ((process_video ⟨some "final answer", 100, false, fun _ => true⟩
        (fun _ _ => defaultAnalysis) dbTwo 4 "s1").1 = .httpError 500
      ∧ (process_video ⟨some "final answer", 100, false, fun _ => true⟩
        (fun _ _ => defaultAnalysis) dbTwo 4 "s1").2.1.responses.length = 2
      ∧ ((process_video ⟨some "final answer", 100, false, fun _ => true⟩
        (fun _ _ => defaultAnalysis) dbTwo 4 "s1").2.1.findSession "s1").map
        (fun t => t.status) = some "completed") := by
  decide

/-- C3 amended: only the effects inside the main transaction are atomic,
and the early in_progress commit is outside it.  On a fresh turn (the
session is not yet in_progress) whose early commit and size check pass:
if this is the final turn and no responses are committed yet, the score
computation divides by zero and the main transaction is rolled back - no
response row persists, but the in_progress flip with its start timestamp
does; if that division is not reached and the main commit raises, the
response row and its analysis and any completion update are likewise
discarded together while the early commit survives; and once the main
commit succeeds, a text-to-speech failure answers 500 with the full turn
already persisted. -/
theorem talk_turn_transaction_amended (env : TalkEnv) (analyze : String → String → Analysis)
    (db : DB) (now : Nat) (iid msg : String) (s : SessionRow) (q : QuestionRow)
    (hs : db.findSession iid = some s)
    (hqne : (db.sessionQuestions iid).isEmpty = false)
    (hcomp : (s.status == "completed") = false)
    (hflip : (s.status != "in_progress") = true)
    (htr : env.transcript = some msg)
    (hsz : ¬ 5 * 1024 * 1024 < env.file_size)
    (hc0 : env.commit_ok 0 = true)
    (hcur : (db.sessionQuestions iid).find?
        (fun p => p.sequence_number == (db.sessionResponses iid).length + 1) = some q) :
    ((db.sessionQuestions iid).length ≤ (db.sessionResponses iid).length + 1 →
      (db.sessionResponses iid).length = 0 →
      (process_video env analyze db now iid).1 = .httpError 500
      ∧ (process_video env analyze db now iid).2.1.responses = db.responses
      ∧ ((process_video env analyze db now iid).2.1.findSession iid).map (fun t => t.status)
          = some "in_progress"
      ∧ ((process_video env analyze db now iid).2.1.findSession iid).map
          (fun t => t.actual_start_time) = some (some now))
    ∧ (¬ ((db.sessionQuestions iid).length ≤ (db.sessionResponses iid).length + 1
          ∧ (db.sessionResponses iid).length = 0) →
      env.commit_ok 1 = false →
      (process_video env analyze db now iid).1 = .httpError 500
      ∧ (process_video env analyze db now iid).2.1.responses = db.responses
      ∧ ((process_video env analyze db now iid).2.1.findSession iid).map (fun t => t.status)
          = some "in_progress"
      ∧ ((process_video env analyze db now iid).2.1.findSession iid).map
          (fun t => t.actual_start_time) = some (some now))
    ∧ (¬ ((db.sessionQuestions iid).length ≤ (db.sessionResponses iid).length + 1
          ∧ (db.sessionResponses iid).length = 0) →
      env.commit_ok 1 = true → env.tts_ok = false →
      (process_video env analyze db now iid).1 = .httpError 500
      ∧ ∃ r, (process_video env analyze db now iid).2.1.responses = db.responses ++ [r]
          ∧ r.response_text = msg) := by
  have hmod := findSession_modify_found db iid (startFlipRow now) (fun t => rfl) s hs
  refine ⟨?_, ?_, ?_⟩
  · intro hlast hzero
    have hred : process_video env analyze db now iid
        = (.httpError 500, db.modifySession iid (startFlipRow now), now) := by
      rw [process_video_of_found env analyze db now iid s hs]
      unfold process_video_found
      simp [hqne, hcomp, hflip, htr, hcur, hc0, hsz, dbEarlyOf]
      intro hcontra
      exact absurd (by simpa using hzero) (hcontra hlast)
    rw [hred]
    exact ⟨rfl, rfl, by rw [show (db.modifySession iid (startFlipRow now)).findSession iid
        = some (startFlipRow now s) from hmod]; rfl,
      by rw [show (db.modifySession iid (startFlipRow now)).findSession iid
        = some (startFlipRow now s) from hmod]; rfl⟩
  · intro hks hc1
    have hred : process_video env analyze db now iid
        = (.httpError 500, db.modifySession iid (startFlipRow now), now) := by
      rw [process_video_of_found env analyze db now iid s hs]
      unfold process_video_found
      simp [hqne, hcomp, hflip, htr, hcur, hc0, hsz, hc1, dbEarlyOf]
    rw [hred]
    exact ⟨rfl, rfl, by rw [show (db.modifySession iid (startFlipRow now)).findSession iid
        = some (startFlipRow now s) from hmod]; rfl,
      by rw [show (db.modifySession iid (startFlipRow now)).findSession iid
        = some (startFlipRow now s) from hmod]; rfl⟩
  · intro hks hc1 htts
    have hpair : (process_video env analyze db now iid).1 = .httpError 500
        ∧ (process_video env analyze db now iid).2.1.responses
          = db.responses ++ [turnResponse (analyze q.question_text msg) iid q.id msg now] := by
      rw [process_video_of_found env analyze db now iid s hs]
      unfold process_video_found
      dsimp only
      rw [if_neg (by simp [hqne] : ¬ (db.sessionQuestions iid).isEmpty = true)]
      rw [if_neg (by simp [hcomp] : ¬ (s.status == "completed") = true)]
      rw [if_neg (by simp [hc0] :
        ¬ ((s.status != "in_progress") && !env.commit_ok 0) = true)]
      rw [if_neg hsz, htr]
      dsimp only
      rw [hcur]
      dsimp only
      rw [if_neg hks]
      rw [if_neg (by simp [hflip, hc1] :
        ¬ (!env.commit_ok (if (s.status != "in_progress") = true then 1 else 0)) = true)]
      rw [if_pos (by simp [htts] : (!env.tts_ok) = true)]
      refine ⟨rfl, ?_⟩
      dsimp only
      split <;> simp [DB.modifySession, dbAddedOf, dbEarlyOf, hflip]
    exact ⟨hpair.1, turnResponse (analyze q.question_text msg) iid q.id msg now, hpair.2, rfl⟩

/-- C3 witness: a ready 2-question session with one committed response,
where the first commit succeeds and the second raises. -/
theorem talk_turn_transaction_amended_witness :
    ((dbTwo.sessionQuestions "s1").length ≤ (dbTwo.sessionResponses "s1").length + 1 →
      (dbTwo.sessionResponses "s1").length = 0 →
      (process_video ⟨some "final answer", 100, true, fun i => i == 0⟩
          (fun _ _ => defaultAnalysis) dbTwo 4 "s1").1 = .httpError 500
      ∧ (process_video ⟨some "final answer", 100, true, fun i => i == 0⟩
          (fun _ _ => defaultAnalysis) dbTwo 4 "s1").2.1.responses = dbTwo.responses
      ∧ (((process_video ⟨some "final answer", 100, true, fun i => i == 0⟩
          (fun _ _ => defaultAnalysis) dbTwo 4 "s1").2.1.findSession "s1").map
          (fun t => t.status)) = some "in_progress"
      ∧ (((process_video ⟨some "final answer", 100, true, fun i => i == 0⟩
          (fun _ _ => defaultAnalysis) dbTwo 4 "s1").2.1.findSession "s1").map
          (fun t => t.actual_start_time)) = some (some 4))
    ∧ (¬ ((dbTwo.sessionQuestions "s1").length ≤ (dbTwo.sessionResponses "s1").length + 1
          ∧ (dbTwo.sessionResponses "s1").length = 0) →
      (fun i => i == 0 : Nat → Bool) 1 = false →
      (process_video ⟨some "final answer", 100, true, fun i => i == 0⟩
          (fun _ _ => defaultAnalysis) dbTwo 4 "s1").1 = .httpError 500
      ∧ (process_video ⟨some "final answer", 100, true, fun i => i == 0⟩
          (fun _ _ => defaultAnalysis) dbTwo 4 "s1").2.1.responses = dbTwo.responses
      ∧ (((process_video ⟨some "final answer", 100, true, fun i => i == 0⟩
          (fun _ _ => defaultAnalysis) dbTwo 4 "s1").2.1.findSession "s1").map
          (fun t => t.status)) = some "in_progress"
      ∧ (((process_video ⟨some "final answer", 100, true, fun i => i == 0⟩
          (fun _ _ => defaultAnalysis) dbTwo 4 "s1").2.1.findSession "s1").map
          (fun t => t.actual_start_time)) = some (some 4))
    ∧ (¬ ((dbTwo.sessionQuestions "s1").length ≤ (dbTwo.sessionResponses "s1").length + 1
          ∧ (dbTwo.sessionResponses "s1").length = 0) →
      (fun i => i == 0 : Nat → Bool) 1 = true → (true : Bool) = false →
      (process_video ⟨some "final answer", 100, true, fun i => i == 0⟩
          (fun _ _ => defaultAnalysis) dbTwo 4 "s1").1 = .httpError 500
      ∧ ∃ r, (process_video ⟨some "final answer", 100, true, fun i => i == 0⟩
          (fun _ _ => defaultAnalysis) dbTwo 4 "s1").2.1.responses = dbTwo.responses ++ [r]
          ∧ r.response_text = "final answer") :=
  talk_turn_transaction_amended ⟨some "final answer", 100, true, fun i => i == 0⟩
    (fun _ _ => defaultAnalysis) dbTwo 4 "s1" "final answer" (sampleSession "ready")
    (sampleQuestion "q2" 2) rfl rfl rfl rfl rfl (by decide) rfl (by decide)

/-! ## C4: completion and final scores -/

lemma sum_const_mul (l : List Rat) (c : Rat) (h : ∀ x ∈ l, x = c) :
    l.sum = (l.length : Rat) * c := by
  induction l with
  | nil => simp
  | cons a t ih =>
    rw [List.sum_cons, h a (by simp), ih (fun x hx => h x (by simp [hx])), List.length_cons]
    push_cast
    ring

lemma mean_getD_const (rs : List ResponseRow) (g : ResponseRow → Option Rat) (c : Rat)
    (h : ∀ r ∈ rs, g r = some c) (hne : rs.length ≠ 0) :
    (rs.map (fun r => (g r).getD 0)).sum / (rs.length : Rat) = c := by
  have hconst : ∀ x ∈ rs.map (fun r => (g r).getD 0), x = c := by
    intro x hx
    obtain ⟨r, hr, hrx⟩ := List.mem_map.mp hx
    rw [← hrx, h r hr]
    rfl
  rw [sum_const_mul _ c hconst, List.length_map]
  exact mul_div_cancel_left₀ c (Nat.cast_ne_zero.mpr hne)

lemma completed_session_facts (dbA : DB) (nowx : Nat) (iid : String) (T C : Rat)
    (s1 : SessionRow) (h1 : dbA.findSession iid = some s1) :
    ((dbA.modifySession iid (completeRow nowx T C)).findSession iid).map (fun t => t.status)
      = some "completed"
    ∧ ((dbA.modifySession iid (completeRow nowx T C)).findSession iid).map
        (fun t => t.actual_start_time) = some s1.actual_start_time
    ∧ ((dbA.modifySession iid (completeRow nowx T C)).findSession iid).map
        (fun t => t.actual_end_time) = some (some nowx)
    ∧ ((dbA.modifySession iid (completeRow nowx T C)).findSession iid).map
        (fun t => t.technical_score) = some T
    ∧ ((dbA.modifySession iid (completeRow nowx T C)).findSession iid).map
        (fun t => t.communication_score) = some C
    ∧ ((dbA.modifySession iid (completeRow nowx T C)).findSession iid).map
        (fun t => (t.technical_score, t.communication_score, t.overall_score))
      = some (T, C, (T + C) / 2) := by
  rw [findSession_modify_found dbA iid (completeRow nowx T C) (fun t => rfl) s1 h1]
  exact ⟨rfl, rfl, rfl, rfl, rfl, rfl⟩

/-- C4 counterexample: on a 1-question session, submitting the answer to
the last (and only) question does not complete the session: the aggregate
query at app/main.py line 845 runs under autoflush=False with no flush
after db.add, so it sees no responses, line 852 divides by zero, and the
request answers 500 with the whole transaction rolled back - the session
stays in_progress with no response row, against the claimed completion
with mean scores. -/
theorem final_turn_crash_counterexample :
    (process_video ⟨some "the answer", 100, true, fun _ => true⟩
        (fun _ _ => ⟨5, 6, 8, "", "", ""⟩) dbOne 4 "s1").1 = .httpError 500
    ∧ ((process_video ⟨some "the answer", 100, true, fun _ => true⟩
        (fun _ _ => ⟨5, 6, 8, "", "", ""⟩) dbOne 4 "s1").2.1.findSession "s1").map
        (fun t => t.status) = some "in_progress"
    ∧ (process_video ⟨some "the answer", 100, true, fun _ => true⟩
        (fun _ _ => ⟨5, 6, 8, "", "", ""⟩) dbOne 4 "s1").2.1.responses.length = 0 := by
  decide

/-- C4 amended: when at least one response is already committed (so the
zero division of the 1-question case is not reached), submitting the
answer to the last question completes the session: status becomes
completed, the end timestamp is at least the start timestamp, and the
stored technical and communication scores are the arithmetic means of the
technical_accuracy and clarity_score values of the previously committed
responses only - the pending row of the current turn is invisible to the
aggregate query under autoflush=False - with overall_score the mean of
the two means.  When every response of the completed session scores
technical 8 and clarity 6 this still yields 8, 6 and 7, since the
committed rows are among them. -/
theorem final_turn_scores (env : TalkEnv) (analyze : String → String → Analysis)
    (db : DB) (now : Nat) (iid msg : String) (s : SessionRow) (q : QuestionRow)
    (hs : db.findSession iid = some s)
    (hqne : (db.sessionQuestions iid).isEmpty = false)
    (hcomp : (s.status == "completed") = false)
    (htr : env.transcript = some msg)
    (hsz : ¬ 5 * 1024 * 1024 < env.file_size)
    (hc0 : env.commit_ok 0 = true)
    (hc1 : env.commit_ok 1 = true)
    (htts : env.tts_ok = true)
    (hcur : (db.sessionQuestions iid).find?
        (fun p => p.sequence_number == (db.sessionResponses iid).length + 1) = some q)
    (hlast : (db.sessionQuestions iid).length ≤ (db.sessionResponses iid).length + 1)
    (hprev : (db.sessionResponses iid).length ≠ 0)
    (hstart : ∀ t0, s.actual_start_time = some t0 → t0 ≤ now)
    (hprog : s.status = "in_progress" → s.actual_start_time ≠ none) :
    ((process_video env analyze db now iid).2.1.findSession iid).map (fun t => t.status)
        = some "completed"
    ∧ (∃ ts te, ((process_video env analyze db now iid).2.1.findSession iid).map
          (fun t => t.actual_start_time) = some (some ts)
        ∧ ((process_video env analyze db now iid).2.1.findSession iid).map
          (fun t => t.actual_end_time) = some (some te)
        ∧ ts ≤ te)
    ∧ ((process_video env analyze db now iid).2.1.findSession iid).map
          (fun t => t.technical_score)
        = some (((db.sessionResponses iid).map
            (fun r => r.technical_accuracy.getD 0)).sum
          / ((db.sessionResponses iid).length : Rat))
    ∧ ((process_video env analyze db now iid).2.1.findSession iid).map
          (fun t => t.communication_score)
        = some (((db.sessionResponses iid).map
            (fun r => r.clarity_score.getD 0)).sum
          / ((db.sessionResponses iid).length : Rat))
    ∧ (∃ T C, ((process_video env analyze db now iid).2.1.findSession iid).map
          (fun t => (t.technical_score, t.communication_score, t.overall_score))
        = some (T, C, (T + C) / 2))
    ∧ ((∀ r ∈ (process_video env analyze db now iid).2.1.sessionResponses iid,
          r.technical_accuracy = some 8 ∧ r.clarity_score = some 6) →
        ((process_video env analyze db now iid).2.1.findSession iid).map
          (fun t => (t.technical_score, t.communication_score, t.overall_score))
        = some (8, 6, 7))
    ∧ (process_video env analyze db now iid).1
        = .stream "completed" (db.sessionQuestions iid).length
            ((db.sessionResponses iid).length + 1) := by
  have hmod := findSession_modify_found db iid (startFlipRow now) (fun t => rfl) s hs
  by_cases hflip : (s.status != "in_progress") = true
  · set dbE := db.modifySession iid (startFlipRow now) with hdbE
    set resp := turnResponse (analyze q.question_text msg) iid q.id msg now with hrsp
    set dbA : DB := ⟨dbE.sessions, dbE.questions, dbE.responses ++ [resp]⟩ with hdbA
    set T := ((db.sessionResponses iid).map (fun r => r.technical_accuracy.getD 0)).sum
        / ((db.sessionResponses iid).length : Rat) with hT
    set C := ((db.sessionResponses iid).map (fun r => r.clarity_score.getD 0)).sum
        / ((db.sessionResponses iid).length : Rat) with hC
    have hrun : process_video env analyze db now iid
        = (.stream "completed" (db.sessionQuestions iid).length
            ((db.sessionResponses iid).length + 1),
           dbA.modifySession iid (completeRow now T C), now + 1) := by
      rw [process_video_of_found env analyze db now iid s hs]
      unfold process_video_found
      simp [hqne, hcomp, hflip, htr, hcur, hc0, hc1, htts, hlast, hsz, hprev,
        dbEarlyOf, dbAddedOf, hdbE, hrsp, hdbA, hT, hC]
    have h1 : dbA.findSession iid = some (startFlipRow now s) := hmod
    obtain ⟨f1, f2, f3, f4, f5, f6⟩ := completed_session_facts dbA now iid T C _ h1
    have hsr : (dbA.modifySession iid (completeRow now T C)).sessionResponses iid
        = dbA.sessionResponses iid := rfl
    have hsub : ∀ r ∈ db.sessionResponses iid, r ∈ dbA.sessionResponses iid := by
      intro r hr
      have hr2 := List.mem_filter.mp hr
      exact List.mem_filter.mpr ⟨List.mem_append_left _ hr2.1, hr2.2⟩
    rw [hrun]
    dsimp only
    rw [hsr]
    refine ⟨f1, ⟨now, now, f2, f3, Nat.le_refl now⟩, f4, f5, ⟨T, C, f6⟩, ?_, rfl⟩
    intro hall
    have hT8 : T = 8 := by
      rw [hT]
      exact mean_getD_const (db.sessionResponses iid) (fun r => r.technical_accuracy)
        8 (fun r hr => (hall r (hsub r hr)).1) hprev
    have hC6 : C = 6 := by
      rw [hC]
      exact mean_getD_const (db.sessionResponses iid) (fun r => r.clarity_score)
        6 (fun r hr => (hall r (hsub r hr)).2) hprev
    rw [f6, hT8, hC6]
    norm_num
  · set resp := turnResponse (analyze q.question_text msg) iid q.id msg now with hrsp
    set dbA : DB := ⟨db.sessions, db.questions, db.responses ++ [resp]⟩ with hdbA
    set T := ((db.sessionResponses iid).map (fun r => r.technical_accuracy.getD 0)).sum
        / ((db.sessionResponses iid).length : Rat) with hT
    set C := ((db.sessionResponses iid).map (fun r => r.clarity_score.getD 0)).sum
        / ((db.sessionResponses iid).length : Rat) with hC
    have hst : s.status = "in_progress" := by
      have hb : (s.status != "in_progress") = false := by
        simpa using hflip
      simpa using hb
    have hrun : process_video env analyze db now iid
        = (.stream "completed" (db.sessionQuestions iid).length
            ((db.sessionResponses iid).length + 1),
           dbA.modifySession iid (completeRow now T C), now + 1) := by
      rw [process_video_of_found env analyze db now iid s hs]
      unfold process_video_found
      simp [hqne, hcomp, hflip, htr, hcur, hc0, hc1, htts, hlast, hsz, hprev,
        dbEarlyOf, dbAddedOf, hrsp, hdbA, hT, hC]
    have h1 : dbA.findSession iid = some s := hs
    obtain ⟨f1, f2, f3, f4, f5, f6⟩ := completed_session_facts dbA now iid T C _ h1
    have hsr : (dbA.modifySession iid (completeRow now T C)).sessionResponses iid
        = dbA.sessionResponses iid := rfl
    have hsub : ∀ r ∈ db.sessionResponses iid, r ∈ dbA.sessionResponses iid := by
      intro r hr
      have hr2 := List.mem_filter.mp hr
      exact List.mem_filter.mpr ⟨List.mem_append_left _ hr2.1, hr2.2⟩
    obtain ⟨t0, ht0⟩ : ∃ t0, s.actual_start_time = some t0 := by
      cases hso : s.actual_start_time with
      | none => exact absurd hso (hprog hst)
      | some t0 => exact ⟨t0, rfl⟩
    rw [hrun]
    dsimp only
    rw [hsr]
    refine ⟨f1, ⟨t0, now, by rw [f2, ht0], f3, hstart t0 ht0⟩, f4, f5, ⟨T, C, f6⟩, ?_, rfl⟩
    intro hall
    have hT8 : T = 8 := by
      rw [hT]
      exact mean_getD_const (db.sessionResponses iid) (fun r => r.technical_accuracy)
        8 (fun r hr => (hall r (hsub r hr)).1) hprev
    have hC6 : C = 6 := by
      rw [hC]
      exact mean_getD_const (db.sessionResponses iid) (fun r => r.clarity_score)
        6 (fun r hr => (hall r (hsub r hr)).2) hprev
    rw [f6, hT8, hC6]
    norm_num

/-- C4 witness: a ready 2-question session with one committed response
scored 8 and 6; the final turn completes it with scores 8, 6 and 7. -/
theorem final_turn_scores_witness :
    (((process_video ⟨some "the answer", 100, true, fun _ => true⟩
        (fun _ _ => ⟨5, 6, 8, "", "", ""⟩) dbTwo 4 "s1").2.1.findSession "s1").map
        (fun t => t.status) = some "completed")
    ∧ (∃ ts te, ((process_video ⟨some "the answer", 100, true, fun _ => true⟩
          (fun _ _ => ⟨5, 6, 8, "", "", ""⟩) dbTwo 4 "s1").2.1.findSession "s1").map
          (fun t => t.actual_start_time) = some (some ts)
        ∧ ((process_video ⟨some "the answer", 100, true, fun _ => true⟩
          (fun _ _ => ⟨5, 6, 8, "", "", ""⟩) dbTwo 4 "s1").2.1.findSession "s1").map
          (fun t => t.actual_end_time) = some (some te)
        ∧ ts ≤ te)
    ∧ (((process_video ⟨some "the answer", 100, true, fun _ => true⟩
          (fun _ _ => ⟨5, 6, 8, "", "", ""⟩) dbTwo 4 "s1").2.1.findSession "s1").map
          (fun t => t.technical_score)
        = some (((dbTwo.sessionResponses "s1").map
            (fun r => r.technical_accuracy.getD 0)).sum
          / ((dbTwo.sessionResponses "s1").length : Rat)))
    ∧ (((process_video ⟨some "the answer", 100, true, fun _ => true⟩
          (fun _ _ => ⟨5, 6, 8, "", "", ""⟩) dbTwo 4 "s1").2.1.findSession "s1").map
          (fun t => t.communication_score)
        = some (((dbTwo.sessionResponses "s1").map
            (fun r => r.clarity_score.getD 0)).sum
          / ((dbTwo.sessionResponses "s1").length : Rat)))
    ∧ (∃ T C, ((process_video ⟨some "the answer", 100, true, fun _ => true⟩
          (fun _ _ => ⟨5, 6, 8, "", "", ""⟩) dbTwo 4 "s1").2.1.findSession "s1").map
          (fun t => (t.technical_score, t.communication_score, t.overall_score))
        = some (T, C, (T + C) / 2))
    ∧ ((∀ r ∈ (process_video ⟨some "the answer", 100, true, fun _ => true⟩
          (fun _ _ => ⟨5, 6, 8, "", "", ""⟩) dbTwo 4 "s1").2.1.sessionResponses "s1",
          r.technical_accuracy = some 8 ∧ r.clarity_score = some 6) →
        ((process_video ⟨some "the answer", 100, true, fun _ => true⟩
          (fun _ _ => ⟨5, 6, 8, "", "", ""⟩) dbTwo 4 "s1").2.1.findSession "s1").map
          (fun t => (t.technical_score, t.communication_score, t.overall_score))
        = some (8, 6, 7))
    ∧ (process_video ⟨some "the answer", 100, true, fun _ => true⟩
          (fun _ _ => ⟨5, 6, 8, "", "", ""⟩) dbTwo 4 "s1").1
        = .stream "completed" (dbTwo.sessionQuestions "s1").length
            ((dbTwo.sessionResponses "s1").length + 1) :=
  final_turn_scores ⟨some "the answer", 100, true, fun _ => true⟩
    (fun _ _ => ⟨5, 6, 8, "", "", ""⟩) dbTwo 4 "s1" "the answer"
    (sampleSession "ready") (sampleQuestion "q2" 2)
    rfl rfl rfl rfl (by decide) rfl rfl rfl (by decide) (by decide) (by decide)
    (fun t0 ht => nomatch ht) (fun h => absurd h (by decide))

/-! ## C9: question update frame -/

/-- C9 counterexample: updating the text of a question also changes the
updated_at column of the row (the ORM onupdate hook stamps it on commit),
which the claim excludes from the fields allowed to change. -/
theorem question_update_updated_at_counterexample :
    ((update_interview_question ⟨[], [sampleQuestion "q1" 1], []⟩ 5 "q1"
        [("question_text", "Updated text for question one?")]).2.1.questions.map
      (fun q => q.updated_at)) = [5]
    ∧ (sampleQuestion "q1" 1).updated_at = 0 := by
  decide

/-- C9 amended: a question update leaves question_type, category,
sequence_number, interview_session_id and is_generated unchanged; besides
question_text, is_modified and modified_at it may also change updated_at.
is_modified is assigned true exactly when the body contains a
question_text key; without that key the row is returned unchanged. -/
theorem question_update_frame_amended (db : DB) (now : Nat) (qid : String)
    (body : List (String × String)) (q : QuestionRow)
    (hq : db.questions.find? (fun p => p.id == qid) = some q) :
    (update_interview_question db now qid body).1 = .ok
    ∧ ((update_interview_question db now qid body).2.1.questions.find?
        (fun p => p.id == qid)) = some (applyQuestionUpdate now body q)
    ∧ (applyQuestionUpdate now body q).question_type = q.question_type
    ∧ (applyQuestionUpdate now body q).category = q.category
    ∧ (applyQuestionUpdate now body q).sequence_number = q.sequence_number
    ∧ (applyQuestionUpdate now body q).interview_session_id = q.interview_session_id
    ∧ (applyQuestionUpdate now body q).is_generated = q.is_generated
    ∧ (body.any (fun kv => kv.1 == "question_text") = true →
        (applyQuestionUpdate now body q).is_modified = true
        ∧ (applyQuestionUpdate now body q).modified_at = some now
        ∧ (applyQuestionUpdate now body q).question_text = dictGetD body "question_text" "")
    ∧ (body.any (fun kv => kv.1 == "question_text") = false →
        applyQuestionUpdate now body q = q)
    ∧ ((applyQuestionUpdate now body q).updated_at = now
        ∨ (applyQuestionUpdate now body q).updated_at = q.updated_at) := by
  have hid : (applyQuestionUpdate now body q).id = q.id := by
    unfold applyQuestionUpdate assignQuestionText
    split <;> split <;> rfl
  have hkey : (q.id == qid) = true := by simpa using List.find?_some hq
  have hfind : ((update_interview_question db now qid body).2.1.questions.find?
      (fun p => p.id == qid)) = some (applyQuestionUpdate now body q) := by
    have hmap : (update_interview_question db now qid body).2.1.questions =
        db.questions.map (fun p => if p.id == qid then applyQuestionUpdate now body q else p) := by
      unfold update_interview_question
      rw [hq]
    rw [hmap]
    have hr : ((applyQuestionUpdate now body q).id == qid) = true := by
      rw [hid]; exact hkey
    exact find?_map_const (fun p => p.id) qid _ hr _ q hq
  have hok : (update_interview_question db now qid body).1 = .ok := by
    unfold update_interview_question
    rw [hq]
  refine ⟨hok, hfind, ?_, ?_, ?_, ?_, ?_, ?_, ?_, ?_⟩
  · unfold applyQuestionUpdate assignQuestionText; split <;> split <;> rfl
  · unfold applyQuestionUpdate assignQuestionText; split <;> split <;> rfl
  · unfold applyQuestionUpdate assignQuestionText; split <;> split <;> rfl
  · unfold applyQuestionUpdate assignQuestionText; split <;> split <;> rfl
  · unfold applyQuestionUpdate assignQuestionText; split <;> split <;> rfl
  · intro hk
    unfold applyQuestionUpdate assignQuestionText
    simp only [hk, if_true]
    split <;> exact ⟨rfl, rfl, rfl⟩
  · intro hk
    unfold applyQuestionUpdate assignQuestionText
    simp only [hk, Bool.false_eq_true, if_false]
    have hcd : QuestionRow.columnsDiffer q q = false := by
      unfold QuestionRow.columnsDiffer
      simp
    simp [hcd]
  · unfold applyQuestionUpdate assignQuestionText
    split <;> split <;> simp

/-- C9 witness. -/
theorem question_update_frame_amended_witness :
    (update_interview_question ⟨[], [sampleQuestion "q1" 1], []⟩ 5 "q1"
        [("question_text", "Updated text for question one?")]).1 = .ok
    ∧ (((update_interview_question ⟨[], [sampleQuestion "q1" 1], []⟩ 5 "q1"
        [("question_text", "Updated text for question one?")]).2.1.questions.find?
        (fun p => p.id == "q1"))) =
      some (applyQuestionUpdate 5 [("question_text", "Updated text for question one?")]
        (sampleQuestion "q1" 1))
    ∧ (applyQuestionUpdate 5 [("question_text", "Updated text for question one?")]
        (sampleQuestion "q1" 1)).question_type = (sampleQuestion "q1" 1).question_type
    ∧ (applyQuestionUpdate 5 [("question_text", "Updated text for question one?")]
        (sampleQuestion "q1" 1)).category = (sampleQuestion "q1" 1).category
    ∧ (applyQuestionUpdate 5 [("question_text", "Updated text for question one?")]
        (sampleQuestion "q1" 1)).sequence_number = (sampleQuestion "q1" 1).sequence_number
    ∧ (applyQuestionUpdate 5 [("question_text", "Updated text for question one?")]
        (sampleQuestion "q1" 1)).interview_session_id = (sampleQuestion "q1" 1).interview_session_id
    ∧ (applyQuestionUpdate 5 [("question_text", "Updated text for question one?")]
        (sampleQuestion "q1" 1)).is_generated = (sampleQuestion "q1" 1).is_generated
    ∧ ([("question_text", "Updated text for question one?")].any
          (fun kv => kv.1 == "question_text") = true →
        (applyQuestionUpdate 5 [("question_text", "Updated text for question one?")]
          (sampleQuestion "q1" 1)).is_modified = true
        ∧ (applyQuestionUpdate 5 [("question_text", "Updated text for question one?")]
            (sampleQuestion "q1" 1)).modified_at = some 5
        ∧ (applyQuestionUpdate 5 [("question_text", "Updated text for question one?")]
            (sampleQuestion "q1" 1)).question_text =
          dictGetD [("question_text", "Updated text for question one?")] "question_text" "")
    ∧ ([("question_text", "Updated text for question one?")].any
          (fun kv => kv.1 == "question_text") = false →
        applyQuestionUpdate 5 [("question_text", "Updated text for question one?")]
          (sampleQuestion "q1" 1) = sampleQuestion "q1" 1)
    ∧ ((applyQuestionUpdate 5 [("question_text", "Updated text for question one?")]
          (sampleQuestion "q1" 1)).updated_at = 5
        ∨ (applyQuestionUpdate 5 [("question_text", "Updated text for question one?")]
            (sampleQuestion "q1" 1)).updated_at = (sampleQuestion "q1" 1).updated_at) :=
  question_update_frame_amended ⟨[], [sampleQuestion "q1" 1], []⟩ 5 "q1"
    [("question_text", "Updated text for question one?")] (sampleQuestion "q1" 1) (by decide)

/-! ## C7: invalid question sequence -/

/-- C7: on an existing, non-completed session with questions, when
answered_questions + 1 matches no question sequence number, the request
answers 400 and inserts no response row (the response table is untouched;
only the separately committed in_progress status flip may have happened).
Hypotheses fix the external calls to succeed: the transcription yields a
text and the early commit goes through. -/
theorem invalid_sequence_rejected (env : TalkEnv) (analyze : String → String → Analysis)
    (db : DB) (now : Nat) (iid msg : String) (s : SessionRow)
    (hs : db.findSession iid = some s)
    (hqne : (db.sessionQuestions iid).isEmpty = false)
    (hc : (s.status == "completed") = false)
    (htr : env.transcript = some msg)
    (hc0 : env.commit_ok 0 = true)
    (hseq : (db.sessionQuestions iid).find?
        (fun p => p.sequence_number == (db.sessionResponses iid).length + 1) = none) :
    (process_video env analyze db now iid).1 = .httpError 400
    ∧ (process_video env analyze db now iid).2.1.responses = db.responses := by
  rw [process_video_of_found env analyze db now iid s hs]
  constructor
  · unfold process_video_found
    simp [hqne, hc, htr, hc0, hseq, dbEarlyOf]
  · unfold process_video_found
    simp [hqne, hc, htr, hc0, hseq, dbEarlyOf]
    split <;> rfl

/-- C7 witness. -/
theorem invalid_sequence_rejected_witness :
    (process_video ⟨some "transcribed answer", 100, true, fun _ => true⟩
        (fun _ _ => defaultAnalysis) dbGap 7 "s1").1 = .httpError 400
    ∧ (process_video ⟨some "transcribed answer", 100, true, fun _ => true⟩
        (fun _ _ => defaultAnalysis) dbGap 7 "s1").2.1.responses = dbGap.responses :=
  invalid_sequence_rejected ⟨some "transcribed answer", 100, true, fun _ => true⟩
    (fun _ _ => defaultAnalysis) dbGap 7 "s1" "transcribed answer" (sampleSession "ready")
    (by decide) (by decide) (by decide) rfl rfl (by decide)

/-- C8 witness. -/
theorem extraction_no_match_amended_witness :
    process_jd_details (fun _ _ => none) "general text" = ⟨"general text", "", ""⟩
    ∧ process_resume_details (fun _ _ => none) (fun _ _ => none) "general text" =
        ⟨"general text", "Unknown Candidate", ""⟩ :=
  extraction_no_match_amended (fun _ _ => none) (fun _ _ => none) (fun _ _ => none)
    "general text" "general text"
    (fun _ _ => rfl) (fun _ _ => rfl) rfl (fun _ _ => rfl)

end AIRecruiter
